import Mathlib

/-!
# Verification of the cookiecutter template hooks

A shallow embedding of the two hook scripts of this repository:

* `hooks/pre_gen_project.py`  — the validation pipeline run before any file
  is generated (repository name, project name, author email, description,
  setup flag, PyPI name-availability check);
* `hooks/post_gen_project.py` — the post-generation task orchestrator
  (`ProjectSetup`: conda environment creation and git repository
  initialization), its command runner and its exit-code policy.

Python regular-expression matching (`re.match`) is embedded by the language
of each concrete pattern, including the Python semantics of `$`, which also
matches just before a single final newline.  `subprocess.run(check=True)`
is embedded as an `Except` value: `error` models the raised
`CalledProcessError`.  The external world (which commands exist and
succeed, whether `environment.yml` is present, whether `git diff --cached`
reports staged changes, what the PyPI query returns) is an explicit
parameter of every function that consulted it in Python.
-/

namespace CookiecutterHooks

/-! ## Pre-generation validation (`hooks/pre_gen_project.py`) -/

/-- Outcome of one validator: it returns normally (`pass_`), returns after
printing a warning (`warn`), or calls `error`, i.e. `sys.exit(1)`
(`fail`). -/
inductive VOut
  | pass_
  | warn
  | fail
  deriving DecidableEq, Repr

/-- The character class `[a-zA-Z0-9_]` of the repository-name pattern. -/
def isWordChar (c : Char) : Bool :=
  c.isAlpha || c.isDigit || c == '_'

/-- The character class `[a-zA-Z_]` (letter or underscore). -/
def isLetterOrUnderscore (c : Char) : Bool :=
  c.isAlpha || c == '_'

/-- Python `$` also matches just before one final newline: the candidate
text a `...$` pattern has to exhaust is the string with one trailing
`'\n'` removed, when there is one. -/
def stripFinalNewline (cs : List Char) : List Char :=
  match cs.getLast? with
  | some c => if c == '\n' then cs.dropLast else cs
  | none => cs

/-- `re.match(r"^[a-zA-Z0-9_]+$", s)` succeeds: one or more word
characters spanning the whole string (up to Python's final-newline
allowance for `$`). -/
def matchesWordPlusAnchored (s : String) : Bool :=
  !(stripFinalNewline s.toList).isEmpty && (stripFinalNewline s.toList).all isWordChar

/-- `re.match(r"^[a-zA-Z_]", s)` succeeds: the string starts with a letter
or an underscore (no `$` in this pattern, so nothing after the first
character matters). -/
def matchesStartLetter (s : String) : Bool :=
  match s.toList with
  | c :: _ => isLetterOrUnderscore c
  | [] => false

/-- `validate_repo_name`: empty names fail; then the name must match
`^[a-zA-Z0-9_]+$`; then it must match `^[a-zA-Z_]`.  The first failing
check calls `error` (process exit 1). -/
def validate_repo_name (name : String) : VOut :=
  if name == "" then .fail
  else if !matchesWordPlusAnchored name then .fail
  else if !matchesStartLetter name then .fail
  else .pass_

/-- The character class `[a-zA-Z0-9._%+-]` of the email pattern's local
part. -/
def isLocalChar (c : Char) : Bool :=
  c.isAlpha || c.isDigit || c == '.' || c == '_' || c == '%' || c == '+' || c == '-'

/-- The character class `[a-zA-Z0-9.-]` of the email pattern's domain
part. -/
def isDomainChar (c : Char) : Bool :=
  c.isAlpha || c.isDigit || c == '.' || c == '-'

/-- The language of `[a-zA-Z0-9.-]+\.[a-zA-Z]{2,}` read to the end of the
list: some split point `i` holds the literal dot, a nonempty domain-part
precedes it and at least two alphabetic characters follow it. -/
def matchesDomainDotTld (cs : List Char) : Bool :=
  (List.range cs.length).any fun i =>
    cs.get? i == some '.' && decide (0 < i) && (cs.take i).all isDomainChar &&
      decide (i + 3 ≤ cs.length) && (cs.drop (i + 1)).all Char.isAlpha

/-- The language of the full email pattern
`^[a-zA-Z0-9._%+-]+@[a-zA-Z0-9.-]+\.[a-zA-Z]{2,}$` on a list of
characters read to its end.  `'@'` belongs to none of the character
classes, so the local part is exactly the text before the first `'@'`. -/
def matchesEmailCore (cs : List Char) : Bool :=
  let l := cs.takeWhile (fun c => !(c == '@'))
  match cs.drop l.length with
  | '@' :: rest => !l.isEmpty && l.all isLocalChar && matchesDomainDotTld rest
  | _ => false

/-- `re.match(r"^[a-zA-Z0-9._%+-]+@[a-zA-Z0-9.-]+\.[a-zA-Z]{2,}$", s)`
succeeds: the core language, with Python's `$` also accepting one final
newline. -/
def matchesEmailPattern (s : String) : Bool :=
  matchesEmailCore s.toList || matchesEmailCore (stripFinalNewline s.toList)

/-- `validate_author_email`: an empty email returns at once (optional
field); otherwise the email must match the pattern or `error` is
called. -/
def validate_author_email (email : String) : VOut :=
  if email == "" then .pass_
  else if !matchesEmailPattern email then .fail
  else .pass_

/-- `MAX_DESCRIPTION_LENGTH` from the hook. -/
def MAX_DESCRIPTION_LENGTH : Nat := 100

/-- `validate_description`: `error` exactly when `len(desc)` exceeds the
maximum. -/
def validate_description (desc : String) : VOut :=
  if MAX_DESCRIPTION_LENGTH < desc.length then .fail else .pass_

/-- What the PyPI lookup of `check_pypi_name_conflict` can come back with:
`urlopen` returned a response with some status, it raised
`urllib.error.HTTPError` with some code, or it raised any other exception
(network error, timeout, ...). -/
inductive PyPiResponse
  | ok (status : Nat)
  | httpError (code : Nat)
  | otherError
  deriving DecidableEq, Repr

/-- `check_pypi_name_conflict`: a 200 response warns about the existing
name; any `HTTPError` other than 404 warns; 404 passes silently; any
other exception warns.  No branch calls `error`. -/
def check_pypi_name_conflict (resp : PyPiResponse) : VOut :=
  match resp with
  | .ok status => if status == 200 then .warn else .pass_
  | .httpError code => if code == 404 then .pass_ else .warn
  | .otherError => .warn

/-- The repository-name rule as the specification words it: the name
matches `^[A-Za-z_][A-Za-z0-9_]*$` (read with the same Python `re`
semantics as the source's patterns). -/
def specRepoNamePattern (s : String) : Bool :=
  match stripFinalNewline s.toList with
  | c :: rest => isLetterOrUnderscore c && rest.all isWordChar
  | [] => false

/-! ## Post-generation setup (`hooks/post_gen_project.py`) -/

/-- The whitespace characters Python's `str.strip()` removes, i.e.
CPython's `Py_UNICODE_ISSPACE` set: the ASCII control whitespace
`\x09`-`\x0d`, the separators `\x1c`-`\x1f`, the space `\x20`, the next
line `\x85`, the no-break space `\xa0`, and the Unicode space separators
`\x1680`, `\x2000`-`\x200a`, `\x2028`, `\x2029`, `\x202f`, `\x205f` and
`\x3000`. -/
def pyIsSpace (c : Char) : Bool :=
  let n := c.toNat
  (0x09 ≤ n && n ≤ 0x0d) || (0x1c ≤ n && n ≤ 0x1f) || n == 0x20 ||
    n == 0x85 || n == 0xa0 || n == 0x1680 || (0x2000 ≤ n && n ≤ 0x200a) ||
    n == 0x2028 || n == 0x2029 || n == 0x202f || n == 0x205f || n == 0x3000

/-- Python `str.strip()`: drop leading and trailing whitespace. -/
def pyStrip (s : String) : String :=
  String.mk (((s.toList.dropWhile pyIsSpace).reverse.dropWhile pyIsSpace).reverse)

/-- What running one external command produced in the operating system:
its exit code and the text it wrote to the two output streams. -/
structure CmdBehavior where
  exitCode : Nat
  stdout : String
  stderr : String
  deriving DecidableEq, Repr

/-- `subprocess.CompletedProcess` as `run_command` returns it: the streams
are captured only when `capture_output` was set. -/
structure CompletedProcess where
  returncode : Nat
  stdout : Option String
  stderr : Option String
  deriving DecidableEq, Repr

/-- `subprocess.CalledProcessError` as `subprocess.run(check=True)` raises
it on a non-zero exit code. -/
structure CalledProcessError where
  returncode : Nat
  stdout : Option String
  stderr : Option String
  deriving DecidableEq, Repr

/-- `ProjectSetup.run_command`: `subprocess.run(command, shell=True,
check=True, capture_output=capture_output)`.  With `check=True` a
non-zero exit code raises `CalledProcessError`; a zero exit code returns
the `CompletedProcess`.  Output is captured only when requested. -/
def run_command (b : CmdBehavior) (capture_output : Bool) :
    Except CalledProcessError CompletedProcess :=
  let out := if capture_output then some b.stdout else none
  let err := if capture_output then some b.stderr else none
  if b.exitCode == 0 then .ok ⟨b.exitCode, out, err⟩
  else .error ⟨b.exitCode, out, err⟩

/-- The two mutable counters of `ProjectSetup.__init__`:
`self.success_count = 0`, `self.total_tasks = 0`. -/
structure Counters where
  success_count : Nat
  total_tasks : Nat
  deriving DecidableEq, Repr

/-- `self.total_tasks += 1` at the top of each task. -/
def bumpTotal (st : Counters) : Counters :=
  { st with total_tasks := st.total_tasks + 1 }

/-- `self.success_count += 1` on a task's success or skip path. -/
def bumpSuccess (st : Counters) : Counters :=
  { st with success_count := st.success_count + 1 }

/-- Everything of the external world the two setup tasks consult: whether
`environment.yml` exists, which tools answer `--version` with exit 0, and
the exit status of each command a task may run.  `stagedChanges` is true
when `git diff --cached --quiet` exits non-zero, i.e. the staging area is
not empty. -/
structure World where
  envFileExists : Bool
  condaAvailable : Bool
  condaCreateOk : Bool
  gitAvailable : Bool
  gitInitOk : Bool
  gitAddOk : Bool
  stagedChanges : Bool
  commitOk : Bool
  remoteAddOk : Bool
  branchOk : Bool
  pushOk : Bool
  deriving DecidableEq, Repr

/-- One external command invocation a task performs, in order.
`gitRemoteAdd` carries the URL interpolated into
`git remote add origin {remote_repo}`. -/
inductive Step
  | condaVersion
  | condaCreate
  | gitVersion
  | gitInit
  | gitAdd
  | gitDiffCached
  | gitCommit
  | gitRemoteAdd (url : String)
  | gitBranch
  | gitPush
  deriving DecidableEq, Repr

/-- What one task left behind: the updated counters, its boolean return
value, and the commands it ran in order. -/
structure TaskResult where
  st : Counters
  ok : Bool
  trace : List Step
  deriving DecidableEq, Repr

/-- `ProjectSetup.setup_conda_environment`: bump the task counter; skip
(counted as success) when `environment.yml` is absent; fail when conda is
unavailable; otherwise run `conda env create` and succeed exactly when it
exits 0. -/
def setup_conda_environment (w : World) (st : Counters) : TaskResult :=
  let st1 := bumpTotal st
  if !w.envFileExists then ⟨bumpSuccess st1, true, []⟩
  else if !w.condaAvailable then ⟨st1, false, [.condaVersion]⟩
  else if w.condaCreateOk then ⟨bumpSuccess st1, true, [.condaVersion, .condaCreate]⟩
  else ⟨st1, false, [.condaVersion, .condaCreate]⟩

/-- `ProjectSetup.setup_git_repository`: bump the task counter; skip
(counted as success) when the URL is empty or whitespace; strip the URL;
fail when git is unavailable; otherwise run `git init`, `git add .`,
probe `git diff --cached --quiet` (exit 0 means nothing is staged, which
the hook reports and returns `False` on, attempting no commit), then
`git commit`, `git remote add origin <stripped url>`, `git branch -M
main`, `git push -u origin main`.  The first step whose command exits
non-zero raises `CalledProcessError`, caught by the task's `except`
clause: the task returns `False` and later steps never run. -/
def setup_git_repository (w : World) (st : Counters) (remote_repo : String) :
    TaskResult :=
  let st1 := bumpTotal st
  if remote_repo == "" || pyStrip remote_repo == "" then
    ⟨bumpSuccess st1, true, []⟩
  else
    let remote := pyStrip remote_repo
    if !w.gitAvailable then ⟨st1, false, [.gitVersion]⟩
    else if !w.gitInitOk then ⟨st1, false, [.gitVersion, .gitInit]⟩
    else if !w.gitAddOk then ⟨st1, false, [.gitVersion, .gitInit, .gitAdd]⟩
    else if !w.stagedChanges then
      ⟨st1, false, [.gitVersion, .gitInit, .gitAdd, .gitDiffCached]⟩
    else if !w.commitOk then
      ⟨st1, false, [.gitVersion, .gitInit, .gitAdd, .gitDiffCached, .gitCommit]⟩
    else if !w.remoteAddOk then
      ⟨st1, false,
        [.gitVersion, .gitInit, .gitAdd, .gitDiffCached, .gitCommit, .gitRemoteAdd remote]⟩
    else if !w.branchOk then
      ⟨st1, false,
        [.gitVersion, .gitInit, .gitAdd, .gitDiffCached, .gitCommit, .gitRemoteAdd remote,
          .gitBranch]⟩
    else if !w.pushOk then
      ⟨st1, false,
        [.gitVersion, .gitInit, .gitAdd, .gitDiffCached, .gitCommit, .gitRemoteAdd remote,
          .gitBranch, .gitPush]⟩
    else
      ⟨bumpSuccess st1, true,
        [.gitVersion, .gitInit, .gitAdd, .gitDiffCached, .gitCommit, .gitRemoteAdd remote,
          .gitBranch, .gitPush]⟩

/-- The two tasks `run_setup` drives, in their fixed order. -/
inductive TaskName
  | condaEnv
  | gitRepo
  deriving DecidableEq, Repr

/-- What one `run_setup` call produced: the final counters, the process
exit code, which tasks were driven (in order), and each task's return
value and command trace. -/
structure RunResult where
  st : Counters
  exit : Nat
  tasksRun : List TaskName
  condaOk : Bool
  condaTrace : List Step
  gitOk : Bool
  gitTrace : List Step
  deriving DecidableEq, Repr

/-- `ProjectSetup.run_setup`: fresh counters, conda task, then git task
unconditionally, then the summary and the tiered exit code:
`0` when `success_count == total_tasks`, else `1` when
`success_count > 0`, else `2`. -/
def run_setup (w : World) (remote_repo : String) : RunResult :=
  let init : Counters := ⟨0, 0⟩
  let r1 := setup_conda_environment w init
  let r2 := setup_git_repository w r1.st remote_repo
  let exit :=
    if r2.st.success_count == r2.st.total_tasks then 0
    else if 0 < r2.st.success_count then 1
    else 2
  ⟨r2.st, exit, [.condaEnv, .gitRepo], r1.ok, r1.trace, r2.ok, r2.trace⟩

/-- The specification's per-task outcome vocabulary. -/
inductive Outcome
  | success
  | skipped
  | failed
  deriving DecidableEq, Repr

/-- The outcome of the environment task, read off its branch structure:
no `environment.yml` is the skip path, conda present and succeeding is
the success path, everything else fails. -/
def condaOutcome (w : World) : Outcome :=
  if !w.envFileExists then .skipped
  else if w.condaAvailable && w.condaCreateOk then .success
  else .failed

/-- The outcome of the version-control task, read off its branch
structure: a blank URL is the skip path; git present and every step
exiting 0 (with changes staged) is the success path; everything else
fails. -/
def gitOutcome (w : World) (remote_repo : String) : Outcome :=
  if remote_repo == "" || pyStrip remote_repo == "" then .skipped
  else if w.gitAvailable && w.gitInitOk && w.gitAddOk && w.stagedChanges &&
      w.commitOk && w.remoteAddOk && w.branchOk && w.pushOk then .success
  else .failed

/-! ## Helper lemmas -/

theorem stripFinalNewline_eq_or (cs : List Char) :
    stripFinalNewline cs = cs ∨ cs = stripFinalNewline cs ++ ['\n'] := by
  unfold stripFinalNewline
  cases hcs : cs.getLast? with
  | none => exact Or.inl rfl
  | some c =>
    by_cases hc : c = '\n'
    · right
      subst hc
      have hne : cs ≠ [] := by
        intro h
        rw [h] at hcs
        simp at hcs
      have hlast : cs.getLast hne = '\n' :=
        Option.some.inj ((List.getLast?_eq_getLast cs hne).symm.trans hcs)
      have hd := List.dropLast_append_getLast hne
      rw [hlast] at hd
      simp [hd]
    · left
      have hbeq : (c == '\n') = false := by simp [hc]
      simp [hbeq]

theorem head?_stripFinalNewline (cs : List Char) (h : stripFinalNewline cs ≠ []) :
    cs.head? = (stripFinalNewline cs).head? := by
  rcases stripFinalNewline_eq_or cs with heq | heq
  · rw [heq]
  · conv_lhs => rw [heq]
    rw [List.head?_append]
    cases ht : (stripFinalNewline cs).head? with
    | none => exact absurd (List.head?_eq_none_iff.mp ht) h
    | some a => rfl

theorem isLetterOrUnderscore_isWordChar {c : Char}
    (h : isLetterOrUnderscore c = true) : isWordChar c = true := by
  simp only [isLetterOrUnderscore, Bool.or_eq_true] at h
  simp only [isWordChar, Bool.or_eq_true]
  tauto

theorem specRepoNameCore_eq (cs : List Char) :
    (match stripFinalNewline cs with
      | c :: rest => isLetterOrUnderscore c && rest.all isWordChar
      | [] => false) =
    ((!(stripFinalNewline cs).isEmpty && (stripFinalNewline cs).all isWordChar) &&
      (match cs with
        | c :: _ => isLetterOrUnderscore c
        | [] => false)) := by
  cases hcs : cs with
  | nil => simp [stripFinalNewline]
  | cons c0 cs0 =>
    cases ht : stripFinalNewline (c0 :: cs0) with
    | nil => simp
    | cons c rest =>
      have hne : stripFinalNewline (c0 :: cs0) ≠ [] := by rw [ht]; simp
      have hhead := head?_stripFinalNewline (c0 :: cs0) hne
      rw [ht] at hhead
      simp only [List.head?_cons, Option.some.injEq] at hhead
      subst hhead
      simp only [List.isEmpty_cons, List.all_cons, Bool.not_false, Bool.true_and]
      cases hL : isLetterOrUnderscore c0 with
      | false => simp [hL]
      | true => simp [hL, isLetterOrUnderscore_isWordChar hL]

theorem specRepoNamePattern_eq_and (s : String) :
    specRepoNamePattern s = (matchesWordPlusAnchored s && matchesStartLetter s) :=
  specRepoNameCore_eq s.toList

theorem validate_repo_name_fail_iff (name : String) :
    validate_repo_name name = .fail ↔ (name = "" ∨ specRepoNamePattern name = false) := by
  by_cases hn : name = ""
  · subst hn
    simp [validate_repo_name]
  · have hbeq : (name == "") = false := by simp [hn]
    rw [specRepoNamePattern_eq_and]
    cases h1 : matchesWordPlusAnchored name <;>
      cases h2 : matchesStartLetter name <;>
        simp [validate_repo_name, hbeq, h1, h2, hn]

theorem validate_repo_name_fail_of_hyphen (name : String)
    (h : '-' ∈ name.toList) : validate_repo_name name = .fail := by
  have hmem : '-' ∈ stripFinalNewline name.toList := by
    rcases stripFinalNewline_eq_or name.toList with heq | heq
    · rw [heq]; exact h
    · rw [heq] at h
      rcases List.mem_append.mp h with h' | h'
      · exact h'
      · simp at h'
  have hall : (stripFinalNewline name.toList).all isWordChar = false := by
    cases hall : (stripFinalNewline name.toList).all isWordChar with
    | false => rfl
    | true =>
      have hw := List.all_eq_true.mp hall _ hmem
      exact absurd hw (by decide)
  have hM1 : matchesWordPlusAnchored name = false := by
    unfold matchesWordPlusAnchored
    rw [hall, Bool.and_false]
  by_cases hn : (name == "") = true <;> simp [validate_repo_name, hn, hM1]

/-! ## Claim theorems: validation pipeline -/

/-- C3: `validate_repo_name` hard-fails (process exit 1) exactly when the
name is empty or does not match `^[A-Za-z_][A-Za-z0-9_]*$` (the pattern
read with Python `re` semantics, as `specRepoNamePattern`); in particular
every name containing a hyphen hard-fails. -/
theorem repo_name_validation_matches_spec (name : String) :
    (validate_repo_name name = .fail ↔ (name = "" ∨ specRepoNamePattern name = false)) ∧
    ('-' ∈ name.toList → validate_repo_name name = .fail) :=
  ⟨validate_repo_name_fail_iff name, validate_repo_name_fail_of_hyphen name⟩

/-- C3 witness: the hyphenated name `my-repo` hard-fails. -/
theorem repo_name_validation_matches_spec_witness :
    validate_repo_name "my-repo" = .fail :=
  (repo_name_validation_matches_spec "my-repo").2 (by decide)

/-- C7: `validate_description` hard-fails exactly when the description's
length exceeds 100 characters; a 101-character description fails and a
100-character one passes. -/
theorem description_validation_matches_spec (desc : String) :
    (validate_description desc = .fail ↔ 100 < desc.length) ∧
    validate_description (String.mk (List.replicate 101 'x')) = .fail ∧
    validate_description (String.mk (List.replicate 100 'x')) = .pass_ := by
  refine ⟨?_, by decide, by decide⟩
  by_cases h : 100 < desc.length <;>
    simp [validate_description, MAX_DESCRIPTION_LENGTH, h]

/-- C8: `validate_author_email` passes on the empty string and hard-fails
exactly when the string is non-empty and does not match the
`local@domain` pattern of the hook. -/
theorem author_email_validation_matches_spec (email : String) :
    validate_author_email "" = .pass_ ∧
    (validate_author_email email = .fail ↔
      (email ≠ "" ∧ matchesEmailPattern email = false)) ∧
    validate_author_email "user@example.com" = .pass_ ∧
    validate_author_email "not-an-email" = .fail := by
  refine ⟨by decide, ?_, by decide, by decide⟩
  by_cases he : email = ""
  · subst he
    simp [validate_author_email]
  · have hbeq : (email == "") = false := by simp [he]
    cases hm : matchesEmailPattern email <;>
      simp [validate_author_email, hbeq, hm, he]

/-- C5: `check_pypi_name_conflict` never hard-fails: HTTP 200 warns,
HTTP 404 passes silently, any other HTTP error warns, and any other
exception (network error included) warns. -/
theorem pypi_check_never_hard_fails :
    (∀ resp, check_pypi_name_conflict resp ≠ .fail) ∧
    check_pypi_name_conflict (.ok 200) = .warn ∧
    (∀ code, code ≠ 404 → check_pypi_name_conflict (.httpError code) = .warn) ∧
    check_pypi_name_conflict (.httpError 404) = .pass_ ∧
    check_pypi_name_conflict .otherError = .warn := by
  refine ⟨?_, by decide, ?_, by decide, by decide⟩
  · intro resp
    cases resp with
    | ok status => by_cases h : (status == 200) = true <;> simp [check_pypi_name_conflict, h]
    | httpError code => by_cases h : (code == 404) = true <;> simp [check_pypi_name_conflict, h]
    | otherError => simp [check_pypi_name_conflict]
  · intro code hc
    have hbeq : (code == 404) = false := by simp [hc]
    simp [check_pypi_name_conflict, hbeq]

/-- C5 witness: a 500 response only warns. -/
theorem pypi_check_never_hard_fails_witness :
    check_pypi_name_conflict (.httpError 500) = .warn :=
  pypi_check_never_hard_fails.2.2.1 500 (by decide)

/-! ## Claim theorems: command runner -/

/-- C1 counterexample: with `check=True`, a command exiting 1 makes
`run_command` raise `CalledProcessError` (the `error` branch), so the
claim that it returns the non-zero exit code to the caller is false. -/
theorem run_command_raises_on_exit_one :
    run_command ⟨1, "out", "err"⟩ true = .error ⟨1, some "out", some "err"⟩ := by
  rfl

/-- C1 amended: `run_command` raises `CalledProcessError` on every
non-zero exit code of the external command (and the error carries the
exit code and, when requested, the captured output); on a zero exit it
returns the `CompletedProcess` with the captured output.  Callers that
probe for availability catch the exception. -/
theorem run_command_check_behaviour (b : CmdBehavior) (capture : Bool) :
    (b.exitCode ≠ 0 →
      run_command b capture =
        .error ⟨b.exitCode, if capture then some b.stdout else none,
          if capture then some b.stderr else none⟩) ∧
    (b.exitCode = 0 →
      run_command b capture =
        .ok ⟨0, if capture then some b.stdout else none,
          if capture then some b.stderr else none⟩) := by
  constructor <;> intro h
  · have hbeq : (b.exitCode == 0) = false := by simp [h]
    simp [run_command, hbeq]
  · simp [run_command, h]

/-- C1 amended witness: exit code 3 raises, with the streams captured. -/
theorem run_command_check_behaviour_witness :
    run_command ⟨3, "a", "b"⟩ true = .error ⟨3, some "a", some "b"⟩ :=
  (run_command_check_behaviour ⟨3, "a", "b"⟩ true).1 (by decide)

/-! ## Helper lemmas: orchestrator counters -/

theorem setup_conda_counts (w : World) (st : Counters) :
    (setup_conda_environment w st).st =
      ⟨st.success_count + (if condaOutcome w = .failed then 0 else 1),
        st.total_tasks + 1⟩ := by
  unfold setup_conda_environment condaOutcome bumpTotal bumpSuccess
  cases he : w.envFileExists <;> cases ha : w.condaAvailable <;>
    cases hc : w.condaCreateOk <;> simp

theorem setup_git_counts (w : World) (st : Counters) (remote : String) :
    (setup_git_repository w st remote).st =
      ⟨st.success_count + (if gitOutcome w remote = .failed then 0 else 1),
        st.total_tasks + 1⟩ := by
  unfold setup_git_repository gitOutcome bumpTotal bumpSuccess
  by_cases hb : (remote == "" || pyStrip remote == "") = true
  · simp [hb]
  · have hb' : (remote == "" || pyStrip remote == "") = false := by
      cases hx : (remote == "" || pyStrip remote == "")
      · rfl
      · exact absurd hx hb
    simp only [hb', Bool.false_eq_true, if_false]
    cases h1 : w.gitAvailable <;> cases h2 : w.gitInitOk <;> cases h3 : w.gitAddOk <;>
      cases h4 : w.stagedChanges <;> cases h5 : w.commitOk <;> cases h6 : w.remoteAddOk <;>
        cases h7 : w.branchOk <;> cases h8 : w.pushOk <;> simp

theorem run_setup_counts (w : World) (remote : String) :
    (run_setup w remote).st =
      ⟨(if condaOutcome w = .failed then 0 else 1) +
        (if gitOutcome w remote = .failed then 0 else 1), 2⟩ := by
  show (setup_git_repository w (setup_conda_environment w ⟨0, 0⟩).st remote).st = _
  rw [setup_git_counts, setup_conda_counts]
  simp

theorem run_setup_exit_eq (w : World) (remote : String) :
    (run_setup w remote).exit =
      if condaOutcome w ≠ .failed ∧ gitOutcome w remote ≠ .failed then 0
      else if condaOutcome w ≠ .failed ∨ gitOutcome w remote ≠ .failed then 1
      else 2 := by
  have hcnt := run_setup_counts w remote
  show (if ((setup_git_repository w (setup_conda_environment w ⟨0, 0⟩).st remote).st.success_count ==
        (setup_git_repository w (setup_conda_environment w ⟨0, 0⟩).st remote).st.total_tasks)
      then (0 : Nat)
      else if 0 < (setup_git_repository w (setup_conda_environment w ⟨0, 0⟩).st remote).st.success_count
      then 1 else 2) = _
  have hst : (setup_git_repository w (setup_conda_environment w ⟨0, 0⟩).st remote).st =
      ⟨(if condaOutcome w = .failed then 0 else 1) +
        (if gitOutcome w remote = .failed then 0 else 1), 2⟩ := hcnt
  rw [hst]
  by_cases hc : condaOutcome w = .failed <;> by_cases hg : gitOutcome w remote = .failed <;>
    simp [hc, hg]

theorem pyStrip_eq_empty_of_all_space (s : String)
    (h : s.toList.all pyIsSpace = true) : pyStrip s = "" := by
  unfold pyStrip
  have h1 : s.toList.dropWhile pyIsSpace = [] :=
    List.dropWhile_eq_nil_iff.mpr fun x hx => List.all_eq_true.mp h x hx
  rw [h1]
  rfl

/-! ## Claim theorems: orchestrator -/

/-- C2: the exit code of `run_setup` is 0 when neither task's outcome is
`failed` (`skipped` counting as success), 1 when exactly one task failed,
and 2 when both failed; with an empty remote URL and no
`environment.yml` both tasks are `skipped` and the exit code is 0. -/
theorem run_setup_exit_policy (w : World) (remote : String) :
    ((run_setup w remote).exit = 0 ↔
      (condaOutcome w ≠ .failed ∧ gitOutcome w remote ≠ .failed)) ∧
    ((run_setup w remote).exit = 1 ↔
      ((condaOutcome w ≠ .failed ∧ gitOutcome w remote = .failed) ∨
        (condaOutcome w = .failed ∧ gitOutcome w remote ≠ .failed))) ∧
    ((run_setup w remote).exit = 2 ↔
      (condaOutcome w = .failed ∧ gitOutcome w remote = .failed)) ∧
    (remote = "" → w.envFileExists = false →
      (run_setup w remote).exit = 0 ∧ condaOutcome w = .skipped ∧
        gitOutcome w remote = .skipped) := by
  rw [run_setup_exit_eq]
  by_cases hc : condaOutcome w = .failed <;> by_cases hg : gitOutcome w remote = .failed
  · refine ⟨by simp [hc, hg], by simp [hc, hg], by simp [hc, hg], ?_⟩
    intro h1 h2
    subst h1
    rw [show condaOutcome w = .skipped by simp [condaOutcome, h2]] at hc
    simp at hc
  · refine ⟨by simp [hc, hg], by simp [hc, hg], by simp [hc, hg], ?_⟩
    intro h1 h2
    subst h1
    rw [show condaOutcome w = .skipped by simp [condaOutcome, h2]] at hc
    simp at hc
  · refine ⟨by simp [hc, hg], by simp [hc, hg], by simp [hc, hg], ?_⟩
    intro h1 _
    subst h1
    rw [show gitOutcome w "" = .skipped by simp [gitOutcome]] at hg
    simp at hg
  · refine ⟨by simp [hc, hg], by simp [hc, hg], by simp [hc, hg], ?_⟩
    intro h1 h2
    subst h1
    exact ⟨by simp [hc, hg], by simp [condaOutcome, h2], by simp [gitOutcome]⟩

/-- C2 witness: no `environment.yml` and an empty remote URL give exit
code 0 with both tasks skipped. -/
theorem run_setup_exit_policy_witness :
    (run_setup ⟨false, true, true, true, true, true, true, true, true, true, true⟩ "").exit = 0 ∧
    condaOutcome ⟨false, true, true, true, true, true, true, true, true, true, true⟩ = .skipped ∧
    gitOutcome ⟨false, true, true, true, true, true, true, true, true, true, true⟩ "" = .skipped :=
  (run_setup_exit_policy ⟨false, true, true, true, true, true, true, true, true, true, true⟩
    "").2.2.2 rfl rfl

theorem git_task_result_indep (w : World) (st st' : Counters) (r : String) :
    (setup_git_repository w st r).ok = (setup_git_repository w st' r).ok ∧
    (setup_git_repository w st r).trace = (setup_git_repository w st' r).trace := by
  unfold setup_git_repository
  by_cases hb : (r == "" || pyStrip r == "") = true
  · simp [hb]
  · have hb' : (r == "" || pyStrip r == "") = false := by
      cases hx : (r == "" || pyStrip r == "")
      · rfl
      · exact absurd hx hb
    simp only [hb', Bool.false_eq_true, if_false]
    cases h1 : w.gitAvailable <;> cases h2 : w.gitInitOk <;> cases h3 : w.gitAddOk <;>
      cases h4 : w.stagedChanges <;> cases h5 : w.commitOk <;> cases h6 : w.remoteAddOk <;>
        cases h7 : w.branchOk <;> cases h8 : w.pushOk <;> simp

/-- C6: `run_setup` drives both tasks in their fixed order for every
world and remote URL (the version-control task runs whatever the
environment task's outcome was, and its return value and command trace do
not depend on the counters the first task left behind), and a final
summary over exactly two tasks is always produced. -/
theorem orchestrator_runs_both_tasks (w : World) (remote : String) (st : Counters) :
    (run_setup w remote).tasksRun = [.condaEnv, .gitRepo] ∧
    (run_setup w remote).st.total_tasks = 2 ∧
    (run_setup w remote).gitOk = (setup_git_repository w st remote).ok ∧
    (run_setup w remote).gitTrace = (setup_git_repository w st remote).trace ∧
    (run_setup w remote).condaOk = (setup_conda_environment w ⟨0, 0⟩).ok := by
  refine ⟨rfl, ?_, ?_, ?_, rfl⟩
  · rw [run_setup_counts]
  · exact (git_task_result_indep w (setup_conda_environment w ⟨0, 0⟩).st st remote).1
  · exact (git_task_result_indep w (setup_conda_environment w ⟨0, 0⟩).st st remote).2

/-- C10: `run_setup` only ever returns 0, 1 or 2; the counters satisfy
`0 ≤ success_count ≤ total_tasks` at initialization, after each task
counter bump and after each task, from any state satisfying it; and the
summary is produced with `total_tasks = 2`. -/
theorem run_setup_exit_range_and_invariant (w : World) (remote : String)
    (st : Counters) (h : st.success_count ≤ st.total_tasks) :
    ((run_setup w remote).exit = 0 ∨ (run_setup w remote).exit = 1 ∨
      (run_setup w remote).exit = 2) ∧
    (0 : Nat) ≤ (⟨0, 0⟩ : Counters).success_count ∧
    (⟨0, 0⟩ : Counters).success_count ≤ (⟨0, 0⟩ : Counters).total_tasks ∧
    (bumpTotal st).success_count ≤ (bumpTotal st).total_tasks ∧
    (setup_conda_environment w st).st.success_count ≤
      (setup_conda_environment w st).st.total_tasks ∧
    (setup_git_repository w st remote).st.success_count ≤
      (setup_git_repository w st remote).st.total_tasks ∧
    (run_setup w remote).st.success_count ≤ (run_setup w remote).st.total_tasks ∧
    (run_setup w remote).st.total_tasks = 2 := by
  refine ⟨?_, Nat.zero_le _, Nat.le_refl _, ?_, ?_, ?_, ?_, ?_⟩
  · rw [run_setup_exit_eq]
    split_ifs <;> simp
  · simp only [bumpTotal]
    omega
  · rw [setup_conda_counts]
    by_cases hc : condaOutcome w = .failed <;> simp [hc] <;> omega
  · rw [setup_git_counts]
    by_cases hg : gitOutcome w remote = .failed <;> simp [hg] <;> omega
  · rw [run_setup_counts]
    by_cases hc : condaOutcome w = .failed <;>
      by_cases hg : gitOutcome w remote = .failed <;> simp [hc, hg]
  · rw [run_setup_counts]

/-- C10 witness: for a world where everything fails and a counter state
satisfying the invariant, the exit code is in range and the summary
covers two tasks. -/
theorem run_setup_exit_range_and_invariant_witness :
    ((run_setup ⟨true, false, false, false, false, false, false, false, false, false, false⟩
        "u").exit = 0 ∨
      (run_setup ⟨true, false, false, false, false, false, false, false, false, false, false⟩
        "u").exit = 1 ∨
      (run_setup ⟨true, false, false, false, false, false, false, false, false, false, false⟩
        "u").exit = 2) ∧
    (run_setup ⟨true, false, false, false, false, false, false, false, false, false, false⟩
      "u").st.total_tasks = 2 := by
  have h := run_setup_exit_range_and_invariant
    ⟨true, false, false, false, false, false, false, false, false, false, false⟩ "u" ⟨0, 0⟩
    (by decide)
  exact ⟨h.1, h.2.2.2.2.2.2.2⟩

/-- C9: a remote URL consisting only of whitespace (the empty string
included) makes the version-control task skip — it returns `True`, runs
no command, increments the success counter, and its outcome is
`skipped` — and whenever `git remote add origin` is run, the URL it
receives is the stripped remote URL. -/
theorem blank_remote_skips_git (w : World) (st : Counters) (remote : String) :
    (remote.toList.all pyIsSpace = true →
      (setup_git_repository w st remote).ok = true ∧
      (setup_git_repository w st remote).trace = [] ∧
      (setup_git_repository w st remote).st.success_count = st.success_count + 1 ∧
      gitOutcome w remote = .skipped) ∧
    (∀ u, Step.gitRemoteAdd u ∈ (setup_git_repository w st remote).trace →
      u = pyStrip remote) := by
  constructor
  · intro h
    have hps : pyStrip remote = "" := pyStrip_eq_empty_of_all_space remote h
    have hcond : (remote == "" || pyStrip remote == "") = true := by
      rw [hps]; simp
    refine ⟨?_, ?_, ?_, ?_⟩ <;>
      simp [setup_git_repository, gitOutcome, hcond, bumpTotal, bumpSuccess]
  · intro u hu
    simp only [setup_git_repository] at hu
    split_ifs at hu <;> simp_all

/-- C9 witness: the all-whitespace URL consisting of a space, a file
separator `\x1c` and a no-break space `\xa0` (all stripped by Python's
`str.strip()`) skips the git task. -/
theorem blank_remote_skips_git_witness :
    (setup_git_repository ⟨true, true, true, true, true, true, true, true, true, true, true⟩
      ⟨0, 0⟩ " \x1c\xa0").ok = true ∧
    (setup_git_repository ⟨true, true, true, true, true, true, true, true, true, true, true⟩
      ⟨0, 0⟩ " \x1c\xa0").trace = [] ∧
    (setup_git_repository ⟨true, true, true, true, true, true, true, true, true, true, true⟩
      ⟨0, 0⟩ " \x1c\xa0").st.success_count = (⟨0, 0⟩ : Counters).success_count + 1 ∧
    gitOutcome ⟨true, true, true, true, true, true, true, true, true, true, true⟩
      " \x1c\xa0" = .skipped :=
  (blank_remote_skips_git ⟨true, true, true, true, true, true, true, true, true, true, true⟩
    ⟨0, 0⟩ " \x1c\xa0").1 (by decide)

/-- C4: with a non-blank remote URL and git available, an empty staging
area makes the task fail with no commit, remote-add, branch rename or
push attempted; each failing step ends the task's command sequence at
that step with the task recording failure; and the sibling environment
task's result within `run_setup` is untouched by any of it. -/
theorem git_task_aborts_at_failing_step (w : World) (st : Counters) (remote : String)
    (hsup : pyStrip remote ≠ "") (hgit : w.gitAvailable = true) :
    (w.gitInitOk = true → w.gitAddOk = true → w.stagedChanges = false →
      (setup_git_repository w st remote).ok = false ∧
      (setup_git_repository w st remote).st.success_count = st.success_count ∧
      (setup_git_repository w st remote).trace =
        [.gitVersion, .gitInit, .gitAdd, .gitDiffCached] ∧
      Step.gitCommit ∉ (setup_git_repository w st remote).trace ∧
      (∀ u, Step.gitRemoteAdd u ∉ (setup_git_repository w st remote).trace) ∧
      Step.gitBranch ∉ (setup_git_repository w st remote).trace ∧
      Step.gitPush ∉ (setup_git_repository w st remote).trace) ∧
    (w.gitInitOk = false →
      (setup_git_repository w st remote).ok = false ∧
      (setup_git_repository w st remote).trace = [.gitVersion, .gitInit]) ∧
    (w.gitInitOk = true → w.gitAddOk = false →
      (setup_git_repository w st remote).ok = false ∧
      (setup_git_repository w st remote).trace = [.gitVersion, .gitInit, .gitAdd]) ∧
    (w.gitInitOk = true → w.gitAddOk = true → w.stagedChanges = true → w.commitOk = false →
      (setup_git_repository w st remote).ok = false ∧
      (setup_git_repository w st remote).trace =
        [.gitVersion, .gitInit, .gitAdd, .gitDiffCached, .gitCommit]) ∧
    (w.gitInitOk = true → w.gitAddOk = true → w.stagedChanges = true → w.commitOk = true →
      w.remoteAddOk = false →
      (setup_git_repository w st remote).ok = false ∧
      (setup_git_repository w st remote).trace =
        [.gitVersion, .gitInit, .gitAdd, .gitDiffCached, .gitCommit,
          .gitRemoteAdd (pyStrip remote)]) ∧
    (w.gitInitOk = true → w.gitAddOk = true → w.stagedChanges = true → w.commitOk = true →
      w.remoteAddOk = true → w.branchOk = false →
      (setup_git_repository w st remote).ok = false ∧
      (setup_git_repository w st remote).trace =
        [.gitVersion, .gitInit, .gitAdd, .gitDiffCached, .gitCommit,
          .gitRemoteAdd (pyStrip remote), .gitBranch]) ∧
    (w.gitInitOk = true → w.gitAddOk = true → w.stagedChanges = true → w.commitOk = true →
      w.remoteAddOk = true → w.branchOk = true → w.pushOk = false →
      (setup_git_repository w st remote).ok = false ∧
      (setup_git_repository w st remote).trace =
        [.gitVersion, .gitInit, .gitAdd, .gitDiffCached, .gitCommit,
          .gitRemoteAdd (pyStrip remote), .gitBranch, .gitPush]) ∧
    ((run_setup w remote).condaOk = (setup_conda_environment w ⟨0, 0⟩).ok ∧
      (run_setup w remote).condaTrace = (setup_conda_environment w ⟨0, 0⟩).trace) := by
  have hre : (remote == "") = false := by
    cases hx : remote == ""
    · rfl
    · exact absurd (show pyStrip remote = "" by rw [show remote = "" by simpa using hx]; rfl) hsup
  have hps : (pyStrip remote == "") = false := by
    cases hx : pyStrip remote == ""
    · rfl
    · exact absurd (by simpa using hx) hsup
  refine ⟨?_, ?_, ?_, ?_, ?_, ?_, ?_, rfl, rfl⟩ <;> intros <;>
    simp_all [setup_git_repository, bumpTotal, bumpSuccess, hre, hps, hgit]

/-- C4 witness: everything succeeds but nothing is staged — the task
fails after the `git diff --cached` probe and never commits. -/
theorem git_task_aborts_at_failing_step_witness :
    (setup_git_repository ⟨true, true, true, true, true, true, false, true, true, true, true⟩
      ⟨0, 0⟩ "https://example.com/r.git").ok = false ∧
    (setup_git_repository ⟨true, true, true, true, true, true, false, true, true, true, true⟩
      ⟨0, 0⟩ "https://example.com/r.git").trace =
      [.gitVersion, .gitInit, .gitAdd, .gitDiffCached] := by
  have h := git_task_aborts_at_failing_step
    ⟨true, true, true, true, true, true, false, true, true, true, true⟩ ⟨0, 0⟩
    "https://example.com/r.git" (by decide) rfl
  exact ⟨(h.1 rfl rfl rfl).1, (h.1 rfl rfl rfl).2.2.1⟩

end CookiecutterHooks
